import Mathlib

/-!
Shallow embedding of the two inventory-generation scripts of the data-platform
repository: namespace `Automate` embeds
`ansible-setup/scripts/automate_cluster_configuration.py` and namespace `GenInv`
embeds `ansible-setup/scripts/generate_inventory.py`.  Strings are Lean
`String`s compared by code point, exactly as Python compares `str` values.
Provider calls are modelled by their responses: a `describe_instances` call is
an `Except Unit (List Ec2Instance)` (error = any caught provider exception),
and per-resource tagging errors are a boolean predicate on instance ids.
-/

/-- One EC2 instance as seen in a `describe_instances` response: private IP
address, instance id, and the tag list. -/
structure Ec2Instance where
  privateIpAddress : String
  instanceId : String
  tags : List (String × String)
deriving DecidableEq

/-- One entry of `instances_details` built by
`automate_cluster_configuration.py::_fetch_instances_details`: ip, id and the
value of the first `Name` tag when present. -/
structure InstDetail where
  ip : String
  id : String
  name : Option String
deriving DecidableEq

/-- Code-point lexicographic strict order on char lists — Python's `<` on
`str` values. -/
def listLt : List Char → List Char → Bool
  | [], [] => false
  | [], _ :: _ => true
  | _ :: _, [] => false
  | a :: as, b :: bs =>
    if a.toNat < b.toNat then true
    else if b.toNat < a.toNat then false
    else listLt as bs

/-- `a ≤ b` on strings under code-point order; the comparison Python's stable
`sorted` effectively uses on the `key` values. -/
def strLe (a b : String) : Bool := !(listLt b.data a.data)

namespace Automate

/-- `KAFKA_SERVICE_TAG` of automate_cluster_configuration.py. -/
def KAFKA_SERVICE_TAG : String := "kafka"

/-- `ZOOKEEPER_SERVICE_TAG` of automate_cluster_configuration.py. -/
def ZOOKEEPER_SERVICE_TAG : String := "zookeeper"

/-- `NUM_KAFKA_DISKS_PER_INSTANCE` of automate_cluster_configuration.py. -/
def NUM_KAFKA_DISKS_PER_INSTANCE : Nat := 2

/-- `KAFKA_MOUNT_PATH` of automate_cluster_configuration.py. -/
def KAFKA_MOUNT_PATH : String := "/mnt/data/kafka-data"

/-- `KAFKA_DISK_SUFFIX` of automate_cluster_configuration.py. -/
def KAFKA_DISK_SUFFIX : String := "1,2"

/-- `next((tag['Value'] for tag in instance.get('Tags', []) if tag['Key'] == 'Name'), None)`:
the value of the first tag whose key is `Name`, if any. -/
def nameTag (i : Ec2Instance) : Option String :=
  (i.tags.find? (fun t => t.1 == "Name")).map (fun t => t.2)

/-- The dictionary `{'ip': ..., 'id': ..., 'name': ...}` appended per instance in
`_fetch_instances_details`. -/
def toDetail (i : Ec2Instance) : InstDetail :=
  ⟨i.privateIpAddress, i.instanceId, nameTag i⟩

/-- One insertion step of a stable sort by `ip` (an element is placed before
the first already-sorted element that is not below it). -/
def insertByIp (a : InstDetail) : List InstDetail → List InstDetail
  | [] => [a]
  | b :: t => if strLe a.ip b.ip then a :: b :: t else b :: insertByIp a t

/-- `sorted(instances_details, key=lambda x: x['ip'])` — a stable sort by the
ip string; modelled as stable insertion sort, which agrees with Python's
stable sort on every input. -/
def sortByIp : List InstDetail → List InstDetail
  | [] => []
  | a :: t => insertByIp a (sortByIp t)

/-- `_fetch_instances_details`: on any caught provider error the function
returns `[]`; otherwise it collects the per-instance detail records and
returns them sorted by ip. -/
def fetch_instances_details (resp : Except Unit (List Ec2Instance)) : List InstDetail :=
  match resp with
  | Except.error _ => []
  | Except.ok l => sortByIp (l.map toDetail)

/-- `fetch_all_cluster_details`: fetch both roles; `none` models the
`sys.exit(1)` taken when both role lists are empty, before any artifact is
generated. -/
def fetch_all_cluster_details (kResp zResp : Except Unit (List Ec2Instance)) :
    Option (List InstDetail × List InstDetail) :=
  let k := fetch_instances_details kResp
  let z := fetch_instances_details zResp
  if k.isEmpty && z.isEmpty then none else some (k, z)

/-- The line written per Kafka instance into `hosts.ini` by
`generate_dp_ansible_inventory`. -/
def kafkaLine (inst : InstDetail) : String :=
  inst.ip ++ " mount_disks=true mount_path=" ++ KAFKA_MOUNT_PATH
    ++ " disks=" ++ KAFKA_DISK_SUFFIX ++ "\n"

/-- The line written per Zookeeper instance into `hosts.ini`. -/
def zkLine (inst : InstDetail) : String :=
  inst.ip ++ " mount_disks=false\n"

/-- `generate_dp_ansible_inventory`: the full text written to `hosts.ini`,
as the concatenation of the `f.write` calls in source order. -/
def dpContent (k z : List InstDetail) : String :=
  "[kafka]\n"
    ++ (if k.isEmpty then "" else String.join (k.map kafkaLine))
    ++ "\n[zookeeper]\n"
    ++ (if z.isEmpty then "" else String.join (z.map zkLine))

/-- `zookeeper_connect_string` in `generate_cp_ansible_hosts_file`. -/
def zookeeperConnectString (sub : String) : String :=
  "zookeeper-" ++ sub ++ ".moeinternal.com:2181/kafka-" ++ sub

/-- `kafka_log_dirs_string`: `",".join(f"{KAFKA_MOUNT_PATH}{i}/topic-data" for
i in range(1, NUM_KAFKA_DISKS_PER_INSTANCE + 1))`. -/
def kafkaLogDirsString : String :=
  String.intercalate ","
    ((List.range' 1 NUM_KAFKA_DISKS_PER_INSTANCE).map
      (fun i => KAFKA_MOUNT_PATH ++ toString i ++ "/topic-data"))

/-- The address-keyed host group built by
`for i, inst in enumerate(instances): hosts[inst['ip']] = {id_field: i + 1}`,
kept as the sequence of dictionary assignments. -/
def hostsMap (l : List InstDetail) : List (String × Nat) :=
  l.enum.map (fun p => (p.2.ip, p.1 + 1))

/-- Lookup in a sequence of dictionary assignments with Python semantics: the
last assignment to a key wins. -/
def dictGet (m : List (String × Nat)) (k : String) : Option Nat :=
  (m.reverse.find? (fun p => p.1 == k)).map (fun p => p.2)

/-- The claim-relevant projection of the `<subservice>-hosts.yml` document:
the `zookeeper.connect` and `log.dirs` broker properties and the two host
groups with their assigned ids. -/
structure CpHostsFile where
  zookeeperConnect : String
  kafkaLogDirs : String
  zookeeperHosts : List (String × Nat)
  kafkaBrokerHosts : List (String × Nat)
deriving DecidableEq

/-- `generate_cp_ansible_hosts_file` of automate_cluster_configuration.py
(claim-relevant fields). -/
def generate_cp_ansible_hosts_file (sub : String) (kafka zk : List InstDetail) :
    CpHostsFile :=
  ⟨zookeeperConnectString sub, kafkaLogDirsString, hostsMap zk, hostsMap kafka⟩

/-- One entry of the Route 53 change batch (flattened `ResourceRecordSet`). -/
structure DnsChange where
  action : String
  rrName : String
  rrType : String
  ttl : Nat
  records : List String
deriving DecidableEq

/-- `kafka_record_name`. -/
def kafkaRecordName (sub : String) : String :=
  "kafka-" ++ sub ++ ".moeinternal.com"

/-- `zookeeper_record_name`. -/
def zookeeperRecordName (sub : String) : String :=
  "zookeeper-" ++ sub ++ ".moeinternal.com"

/-- `create_route53_dns_records`: the change batch built before the provider
call — one UPSERT per non-empty role group, Kafka first. -/
def create_route53_dns_records (sub : String) (kafka zk : List InstDetail) :
    List DnsChange :=
  (if kafka.isEmpty then []
   else [⟨"UPSERT", kafkaRecordName sub, "A", 60, kafka.map (fun i => i.ip)⟩])
  ++ (if zk.isEmpty then []
      else [⟨"UPSERT", zookeeperRecordName sub, "A", 60, zk.map (fun i => i.ip)⟩])

/-- `stripPre pre s = some r` iff `s = pre ++ r`: matching a literal piece of
the regex. -/
def stripPre : List Char → List Char → Option (List Char)
  | [], s => some s
  | _ :: _, [] => none
  | a :: as, b :: bs => if a = b then stripPre as bs else none

/-- Matching the regex piece `<sub>-(\d+)$` against a whole suffix `s`:
returns the digit group when `s = sub ++ '-' :: d` with `d` nonempty and all
digits. -/
def subDashDigits (sub s : List Char) : Option (List Char) :=
  match stripPre sub s with
  | some (c :: d) =>
    if c = '-' then
      if d.isEmpty then none else if d.all Char.isDigit then some d else none
    else none
  | _ => none

/-- `re.search(rf'[-_]?{re.escape(subservice)}-(\d+)$', name)`: scan the start
positions left to right; at each position first try to consume one optional
`-`/`_`, then the literal subservice, `-`, and one or more digits running to the
end of the string.  Returns the digit group of the first match. -/
def searchNodeSuffix (sub : List Char) : List Char → Option (List Char)
  | [] => none
  | c :: t =>
    match (if c = '-' ∨ c = '_' then subDashDigits sub t else none) with
    | some d => some d
    | none =>
      match subDashDigits sub (c :: t) with
      | some d => some d
      | none => searchNodeSuffix sub t

/-- Python's `list.index` on the kafka instance list: index of the first equal
element (total here; only evaluated on members). -/
def pyIndex (l : List InstDetail) (x : InstDetail) : Nat :=
  match l with
  | [] => 0
  | a :: t => if a = x then 0 else pyIndex t x + 1

/-- `node_id_value` as computed in `tag_ec2_instances` for one Kafka instance:
regex hit gives `f"{subservice}-{digits}"`, otherwise (no name or no match)
the sequential fallback `f"{subservice}-fallback-{kafka_instances.index(inst) + 1}"`. -/
def nodeIdValue (sub : String) (kafkaInstances : List InstDetail) (inst : InstDetail) :
    String :=
  match inst.name with
  | some nm =>
    match searchNodeSuffix sub.data nm.data with
    | some d => sub ++ "-" ++ String.mk d
    | none => sub ++ "-fallback-" ++ toString (pyIndex kafkaInstances inst + 1)
  | none => sub ++ "-fallback-" ++ toString (pyIndex kafkaInstances inst + 1)

/-- Outcome of one tagging iteration: tags written, provider error caught and
logged, or the (dead) branch that skips an instance with a falsy node id. -/
inductive TagEvent where
  | tagged (id : String) (tags : List (String × String))
  | failed (id : String)
  | skipped (id : String)
deriving DecidableEq

/-- The Kafka loop of `tag_ec2_instances`: per instance, compute
`node_id_value`, and when it is truthy attempt `create_tags`, catching
`ClientError` and continuing with the next instance. -/
def tagKafkaInstances (sub : String) (err : String → Bool) (kafka : List InstDetail) :
    List TagEvent :=
  kafka.map (fun inst =>
    let v := nodeIdValue sub kafka inst
    if v = "" then TagEvent.skipped inst.id
    else if err inst.id then TagEvent.failed inst.id
    else TagEvent.tagged inst.id [("NodeId", v), ("prometheus", "enabled")])

/-- The Zookeeper loop of `tag_ec2_instances`: per instance attempt
`create_tags`, catching `ClientError` and continuing. -/
def tagZookeeperInstances (err : String → Bool) (zk : List InstDetail) :
    List TagEvent :=
  zk.map (fun inst =>
    if err inst.id then TagEvent.failed inst.id
    else TagEvent.tagged inst.id [("prometheus", "enabled")])

/-- The id-to-NodeId assignment produced by the Kafka tagging loop when no
provider call fails. -/
def kafkaNodeTags (sub : String) (kafka : List InstDetail) : List (String × String) :=
  kafka.map (fun inst => (inst.id, nodeIdValue sub kafka inst))

/-- `run` up to artifact generation: `none` models the non-zero exit taken in
`fetch_all_cluster_details` before any artifact is written; otherwise the two
generated artifacts (`hosts.ini` text and the cp-ansible hosts file). -/
def runPipeline (sub : String) (kResp zResp : Except Unit (List Ec2Instance)) :
    Option (String × CpHostsFile) :=
  (fetch_all_cluster_details kResp zResp).map
    (fun p => (dpContent p.1 p.2, generate_cp_ansible_hosts_file sub p.1 p.2))

/-- `run` including the tagging stage (DNS creation is commented out in
`run`): artifacts plus the sequence of tagging outcomes.  `none` is the only
non-zero exit in this model. -/
def fullRun (sub : String) (kResp zResp : Except Unit (List Ec2Instance))
    (err : String → Bool) :
    Option ((String × CpHostsFile) × List TagEvent) :=
  (fetch_all_cluster_details kResp zResp).map
    (fun p => ((dpContent p.1 p.2, generate_cp_ansible_hosts_file sub p.1 p.2),
      tagKafkaInstances sub err p.1 ++ tagZookeeperInstances err p.2))

end Automate

namespace GenInv

/-- The values appended to `instance_names` for one instance:
`for tag in instance.get('Tags', []): if tag['Key'] == 'Name': append(tag['Value'])`. -/
def nameTagValues (i : Ec2Instance) : List String :=
  i.tags.filterMap (fun t => if t.1 == "Name" then some t.2 else none)

/-- `fetch_ec2_ips` of generate_inventory.py: on a caught error (raised by the
single `describe_instances` call, before anything is appended) all three lists
are empty; otherwise ips and ids are appended per instance in response order
(no sorting — the sort is commented out), and names only for Name tags found. -/
def fetch_ec2_ips (resp : Except Unit (List Ec2Instance)) :
    List String × List String × List String :=
  match resp with
  | Except.error _ => ([], [], [])
  | Except.ok l =>
    (l.map (fun i => i.privateIpAddress),
     l.map (fun i => i.instanceId),
     l.flatMap nameTagValues)

/-- The per-Kafka-ip line of `generate_ansible_inventory`. -/
def genKafkaLine (ip : String) : String :=
  ip ++ " mount_disks=true mount_path=/mnt/data/kafka-data disks=1,2\n"

/-- The per-Zookeeper-ip line of `generate_ansible_inventory`. -/
def genZkLine (ip : String) : String :=
  ip ++ " mount_disks=false\n"

/-- `generate_ansible_inventory`: the full text written to `hosts.ini`. -/
def generate_ansible_inventory (kafkaIps zkIps : List String) : String :=
  "[kafka]\n"
    ++ (if kafkaIps.isEmpty then "" else String.join (kafkaIps.map genKafkaLine))
    ++ "\n[zookeeper]\n"
    ++ (if zkIps.isEmpty then "" else String.join (zkIps.map genZkLine))

/-- The host-group assignments `for i, ip in enumerate(ips): hosts[ip] = {id: i+1}`. -/
def hostsMapStr (ips : List String) : List (String × Nat) :=
  ips.enum.map (fun p => (p.2, p.1 + 1))

/-- `generate_cp_ansible_hosts_file` of generate_inventory.py (claim-relevant
fields; it builds the same connect string and log.dirs string as the automate
script). -/
def generate_cp_ansible_hosts_file (sub : String) (kafkaIps zkIps : List String) :
    Automate.CpHostsFile :=
  ⟨Automate.zookeeperConnectString sub, Automate.kafkaLogDirsString,
   hostsMapStr zkIps, hostsMapStr kafkaIps⟩

/-- `create_route53_dns_records` of generate_inventory.py: the change batch
built before the provider call. -/
def create_route53_dns_records (sub : String) (kafkaIps zkIps : List String) :
    List Automate.DnsChange :=
  (if kafkaIps.isEmpty then []
   else [⟨"UPSERT", Automate.kafkaRecordName sub, "A", 60, kafkaIps⟩])
  ++ (if zkIps.isEmpty then []
      else [⟨"UPSERT", Automate.zookeeperRecordName sub, "A", 60, zkIps⟩])

/-- Python's `str.split('-')` on the character list of a name. -/
def splitDash : List Char → List (List Char)
  | [] => [[]]
  | c :: t =>
    if c = '-' then [] :: splitDash t
    else
      match splitDash t with
      | [] => [[c]]
      | h :: r => (c :: h) :: r

/-- The NodeId computed in `tag_ec2_instances_with_nodeid` from one display
name: `split_name = instance_name.split('-')`; when it has more than 4 parts,
`f"{split_name[3]}-{split_name[4]}"`, otherwise the instance is skipped. -/
def genNodeIdOfName (nm : String) : Option String :=
  let parts := splitDash nm.data
  if parts.length > 4 then
    some (String.mk (parts.getD 3 []) ++ "-" ++ String.mk (parts.getD 4 []))
  else none

/-- The id-to-NodeId pairing of `tag_ec2_instances_with_nodeid`: instance ids
and names are matched by list position; `none` where no tag is attempted. -/
def kafkaNodeTags (ids names : List String) : List (String × Option String) :=
  ids.enum.map (fun p =>
    (p.2, match names[p.1]? with
          | some nm => genNodeIdOfName nm
          | none => none))

/-- The Kafka loop of `tag_ec2_instances_with_nodeid` with per-call provider
errors: names are taken by position; a `ClientError` on one `create_tags` call
is caught and the loop continues. -/
def tagKafka (err : String → Bool) (ids names : List String) :
    List Automate.TagEvent :=
  ids.enum.map (fun p =>
    match names[p.1]? with
    | some nm =>
      match genNodeIdOfName nm with
      | some v =>
        if err p.2 then Automate.TagEvent.failed p.2
        else Automate.TagEvent.tagged p.2 [("NodeId", v), ("prometheus", "enabled")]
      | none => Automate.TagEvent.skipped p.2
    | none => Automate.TagEvent.skipped p.2)

end GenInv

/-- `d` is a nonempty run of decimal digits. -/
def IsDigitRun (d : List Char) : Prop :=
  d ≠ [] ∧ d.all Char.isDigit = true

/-- The name has a (sub)service-number tail: `nm = p ++ sub ++ '-' :: d` with
`d` a nonempty digit run reaching the end of the name. -/
def HasTailMatch (sub nm : List Char) : Prop :=
  ∃ p d, nm = p ++ sub ++ '-' :: d ∧ IsDigitRun d

/-- `headD` of the per-instance Name-tag values; names the unique Name value
when the instance carries exactly one Name tag. -/
def headNameValue (i : Ec2Instance) : String :=
  (GenInv.nameTagValues i).headD ""

lemma data_append (s t : String) : (s ++ t).data = s.data ++ t.data := rfl

lemma map_isEmpty {α β : Type} (f : α → β) (l : List α) :
    (l.map f).isEmpty = l.isEmpty := by
  cases l <;> rfl

lemma append_mid_ne_empty (a m b : String) (hm : m.data ≠ []) : a ++ m ++ b ≠ "" := by
  intro h
  have h2 : (a ++ m ++ b).data = ("" : String).data := congrArg String.data h
  rw [data_append, data_append] at h2
  rcases List.append_eq_nil.mp h2 with ⟨h3, _⟩
  exact hm (List.append_eq_nil.mp h3).2

lemma record_names_ne (s t : String) :
    Automate.kafkaRecordName s ≠ Automate.zookeeperRecordName t := by
  intro h
  have h2 : ((Automate.kafkaRecordName s).data).head?
      = ((Automate.zookeeperRecordName t).data).head? := by rw [h]
  rw [show ((Automate.kafkaRecordName s).data).head? = some 'k' from rfl] at h2
  rw [show ((Automate.zookeeperRecordName t).data).head? = some 'z' from rfl] at h2
  exact absurd h2 (by decide)

lemma stripPre_eq_some : ∀ (pre s r : List Char),
    Automate.stripPre pre s = some r ↔ s = pre ++ r := by
  intro pre
  induction pre with
  | nil =>
    intro s r
    simp [Automate.stripPre]
  | cons a as ih =>
    intro s r
    cases s with
    | nil =>
      simp [Automate.stripPre]
    | cons b bs =>
      by_cases hab : a = b
      · subst hab
        rw [Automate.stripPre, if_pos rfl, ih]
        constructor
        · intro h; rw [h]; rfl
        · intro h
          have := congrArg List.tail h
          simpa using this
      · rw [Automate.stripPre, if_neg hab]
        constructor
        · intro h; cases h
        · intro h
          rw [List.cons_append] at h
          injection h with h1 _
          exact absurd h1.symm hab

lemma subDashDigits_some (sub s d : List Char)
    (h : Automate.subDashDigits sub s = some d) :
    s = sub ++ '-' :: d ∧ IsDigitRun d := by
  rw [Automate.subDashDigits] at h
  cases hp : Automate.stripPre sub s with
  | none => rw [hp] at h; exact Option.noConfusion h
  | some r =>
    rw [hp] at h
    cases r with
    | nil => exact Option.noConfusion h
    | cons c d' =>
      have h2 : (if c = '-' then
          (if d'.isEmpty then none
           else if d'.all Char.isDigit then some d' else none)
          else none) = some d := h
      by_cases hc : c = '-'
      · rw [if_pos hc] at h2
        subst hc
        by_cases he : List.isEmpty d'
        · rw [if_pos he] at h2; exact Option.noConfusion h2
        · rw [if_neg he] at h2
          by_cases hd : d'.all Char.isDigit
          · rw [if_pos hd] at h2
            injection h2 with hdd
            subst hdd
            refine ⟨(stripPre_eq_some sub s ('-' :: d')).mp hp, ?_, hd⟩
            intro hnil
            rw [hnil] at he
            exact he rfl
          · rw [if_neg hd] at h2; exact Option.noConfusion h2
      · rw [if_neg hc] at h2; exact Option.noConfusion h2

lemma subDashDigits_of_eq (sub s d : List Char)
    (hs : s = sub ++ '-' :: d) (hd : IsDigitRun d) :
    Automate.subDashDigits sub s = some d := by
  have hp : Automate.stripPre sub s = some ('-' :: d) :=
    (stripPre_eq_some sub s ('-' :: d)).mpr hs
  rw [Automate.subDashDigits, hp]
  have he : d.isEmpty = false := by
    cases d with
    | nil => exact absurd rfl hd.1
    | cons c cs => rfl
  show (if ('-' : Char) = '-' then
      (if d.isEmpty then none
       else if d.all Char.isDigit then some d else none)
      else none) = some d
  rw [if_pos rfl, he]
  simp [hd.2]

lemma searchNodeSuffix_some (sub : List Char) : ∀ (nm d : List Char),
    Automate.searchNodeSuffix sub nm = some d →
      (∃ p, nm = p ++ sub ++ '-' :: d) ∧ IsDigitRun d := by
  intro nm
  induction nm with
  | nil => intro d h; cases h
  | cons c t ih =>
    intro d h
    rw [Automate.searchNodeSuffix] at h
    cases hA : (if c = '-' ∨ c = '_' then Automate.subDashDigits sub t else none) with
    | some d' =>
      rw [hA] at h
      injection h with hdd
      have hA' : Automate.subDashDigits sub t = some d' := by
        by_cases hc : c = '-' ∨ c = '_'
        · rw [if_pos hc] at hA; exact hA
        · rw [if_neg hc] at hA; exact Option.noConfusion hA
      obtain ⟨ht, hd⟩ := subDashDigits_some sub t d' hA'
      subst hdd
      exact ⟨⟨[c], by rw [ht]; rfl⟩, hd⟩
    | none =>
      rw [hA] at h
      cases hB : Automate.subDashDigits sub (c :: t) with
      | some d' =>
        rw [hB] at h
        injection h with hdd
        obtain ⟨ht, hd⟩ := subDashDigits_some sub (c :: t) d' hB
        subst hdd
        exact ⟨⟨[], by rw [ht]; rfl⟩, hd⟩
      | none =>
        rw [hB] at h
        obtain ⟨⟨p, hp⟩, hd⟩ := ih d h
        exact ⟨⟨c :: p, by rw [hp]; rfl⟩, hd⟩

lemma searchNodeSuffix_none_of (sub : List Char) : ∀ (nm : List Char),
    Automate.searchNodeSuffix sub nm = none → ¬ HasTailMatch sub nm := by
  intro nm
  induction nm with
  | nil =>
    intro _ hTM
    obtain ⟨p, d, hp, _⟩ := hTM
    have : ([] : List Char).length = (p ++ sub ++ '-' :: d).length := by rw [hp]
    simp at this
    omega
  | cons c t ih =>
    intro h hTM
    obtain ⟨p, d, hp, hd⟩ := hTM
    rw [Automate.searchNodeSuffix] at h
    cases hA : (if c = '-' ∨ c = '_' then Automate.subDashDigits sub t else none) with
    | some d' => rw [hA] at h; cases h
    | none =>
      rw [hA] at h
      cases hB : Automate.subDashDigits sub (c :: t) with
      | some d' => rw [hB] at h; cases h
      | none =>
        rw [hB] at h
        cases p with
        | nil =>
          have : Automate.subDashDigits sub (c :: t) = some d :=
            subDashDigits_of_eq sub (c :: t) d (by simpa using hp) hd
          rw [hB] at this
          cases this
        | cons c' p' =>
          simp only [List.cons_append, List.append_assoc] at hp
          injection hp with h1 h2
          refine ih h ⟨p', d, ?_, hd⟩
          rw [h2, List.append_assoc]

lemma searchNodeSuffix_none_iff (sub nm : List Char) :
    Automate.searchNodeSuffix sub nm = none ↔ ¬ HasTailMatch sub nm := by
  constructor
  · exact searchNodeSuffix_none_of sub nm
  · intro hn
    cases hd : Automate.searchNodeSuffix sub nm with
    | none => rfl
    | some d =>
      obtain ⟨⟨p, hp⟩, hdr⟩ := searchNodeSuffix_some sub nm d hd
      exact absurd ⟨p, d, hp, hdr⟩ hn

lemma insertByIp_eq_cons (a : InstDetail) (t : List InstDetail)
    (h : ∀ b ∈ t, strLe a.ip b.ip = true) : Automate.insertByIp a t = a :: t := by
  cases t with
  | nil => rfl
  | cons b t' =>
    rw [Automate.insertByIp, if_pos]
    exact h b (List.mem_cons_self b t')

lemma sortByIp_fixed : ∀ l : List InstDetail,
    List.Pairwise (fun x y => strLe x.ip y.ip = true) l → Automate.sortByIp l = l := by
  intro l
  induction l with
  | nil => intro _; rfl
  | cons a t ih =>
    intro hl
    rw [List.pairwise_cons] at hl
    rw [Automate.sortByIp, ih hl.2, insertByIp_eq_cons a t hl.1]

lemma find?_eq_of_nodup {β : Type} : ∀ (m : List (String × β)) (k : String) (v : β),
    (m.map Prod.fst).Nodup → (k, v) ∈ m →
      m.find? (fun p => p.1 == k) = some (k, v) := by
  intro m
  induction m with
  | nil => intro k v _ hm; cases hm
  | cons a t ih =>
    intro k v hn hm
    rw [List.map_cons, List.nodup_cons] at hn
    rcases List.mem_cons.mp hm with he | hm
    · rw [← he]
      rw [List.find?_cons_of_pos]
      simp
    · by_cases hk : a.1 = k
      · exact absurd (hk ▸ List.mem_map_of_mem Prod.fst hm) hn.1
      · rw [List.find?_cons_of_neg, ih k v hn.2 hm]
        simp [hk]

lemma dictGet_eq_of_mem {m : List (String × Nat)} {k : String} {v : Nat}
    (hn : (m.map Prod.fst).Nodup) (hm : (k, v) ∈ m) :
    Automate.dictGet m k = some v := by
  have hn' : (m.reverse.map Prod.fst).Nodup := by
    rw [List.map_reverse]
    exact List.nodup_reverse.mpr hn
  have hm' : (k, v) ∈ m.reverse := List.mem_reverse.mpr hm
  rw [Automate.dictGet, find?_eq_of_nodup m.reverse k v hn' hm']
  rfl

lemma hostsMap_keys (l : List InstDetail) :
    (Automate.hostsMap l).map Prod.fst = l.map (fun i => i.ip) := by
  rw [Automate.hostsMap, List.map_map]
  have h1 : (Prod.fst ∘ fun p : Nat × InstDetail => (p.2.ip, p.1 + 1)) =
      ((fun i : InstDetail => i.ip) ∘ Prod.snd) := rfl
  rw [h1, ← List.map_map, List.enum_map_snd]

lemma hostsMap_getElem? (l : List InstDetail) (i : Nat) :
    (Automate.hostsMap l)[i]? = (l[i]?).map (fun a => (a.ip, i + 1)) := by
  rw [Automate.hostsMap, List.getElem?_map, List.getElem?_enum]
  cases l[i]? <;> rfl

lemma dictGet_hostsMap (l : List InstDetail) (hn : (l.map (fun i => i.ip)).Nodup)
    (i : Nat) (x : InstDetail) (hx : l[i]? = some x) :
    Automate.dictGet (Automate.hostsMap l) x.ip = some (i + 1) := by
  apply dictGet_eq_of_mem
  · rw [hostsMap_keys]; exact hn
  · have h1 : (Automate.hostsMap l)[i]? = some (x.ip, i + 1) := by
      rw [hostsMap_getElem?, hx]; rfl
    exact List.get?_mem (by rw [List.get?_eq_getElem?]; exact h1)

lemma pyIndex_getElem? : ∀ (l : List InstDetail), l.Nodup →
    ∀ (i : Nat) (x : InstDetail), l[i]? = some x → Automate.pyIndex l x = i := by
  intro l
  induction l with
  | nil => intro _ i x h; simp at h
  | cons a t ih =>
    intro hn i x h
    rw [List.nodup_cons] at hn
    cases i with
    | zero =>
      rw [List.getElem?_cons_zero] at h
      injection h with h
      subst h
      simp [Automate.pyIndex]
    | succ j =>
      rw [List.getElem?_cons_succ] at h
      have hxt : x ∈ t := List.get?_mem (by rw [List.get?_eq_getElem?]; exact h)
      have hax : ¬ a = x := fun he => hn.1 (he ▸ hxt)
      simp [Automate.pyIndex, hax, ih hn.2 j x h]

lemma nodeIdValue_ne_empty (sub : String) (l : List InstDetail) (inst : InstDetail) :
    Automate.nodeIdValue sub l inst ≠ "" := by
  rw [Automate.nodeIdValue]
  cases inst.name with
  | none => exact append_mid_ne_empty sub "-fallback-" _ (by decide)
  | some nm =>
    show (match Automate.searchNodeSuffix sub.data nm.data with
      | some d => sub ++ "-" ++ String.mk d
      | none => sub ++ "-fallback-" ++ toString (Automate.pyIndex l inst + 1)) ≠ ""
    cases Automate.searchNodeSuffix sub.data nm.data with
    | none => exact append_mid_ne_empty sub "-fallback-" _ (by decide)
    | some d => exact append_mid_ne_empty sub "-" _ (by decide)

lemma flatMap_names : ∀ (l : List Ec2Instance),
    (∀ i ∈ l, ∃ v, GenInv.nameTagValues i = [v]) →
      l.flatMap GenInv.nameTagValues = l.map headNameValue := by
  intro l
  induction l with
  | nil => intro _; rfl
  | cons a t ih =>
    intro h
    obtain ⟨v, hv⟩ := h a (List.mem_cons_self a t)
    rw [List.flatMap_cons, List.map_cons, hv,
      ih (fun i hi => h i (List.mem_cons_of_mem a hi))]
    rw [show headNameValue a = v from by rw [headNameValue, hv]; rfl]
    rfl

lemma kafkaLine_eq (inst : InstDetail) :
    Automate.kafkaLine inst =
      inst.ip ++ " mount_disks=true mount_path=/mnt/data/kafka-data disks=1,2\n" := by
  apply String.ext
  show inst.ip.data ++ " mount_disks=true mount_path=".data
      ++ Automate.KAFKA_MOUNT_PATH.data ++ " disks=".data
      ++ Automate.KAFKA_DISK_SUFFIX.data ++ "\n".data
    = inst.ip.data
      ++ " mount_disks=true mount_path=/mnt/data/kafka-data disks=1,2\n".data
  simp only [List.append_assoc]
  exact congrArg (fun x => inst.ip.data ++ x) (by decide)

lemma hostsMapStr_map_ip (l : List InstDetail) :
    GenInv.hostsMapStr (l.map (fun i => i.ip)) = Automate.hostsMap l := by
  rw [GenInv.hostsMapStr, Automate.hostsMap, List.enum_map, List.map_map]
  rfl

lemma map_kafkaLine (l : List InstDetail) :
    (l.map (fun i => i.ip)).map GenInv.genKafkaLine = l.map Automate.kafkaLine := by
  rw [List.map_map]
  induction l with
  | nil => rfl
  | cons a t ih =>
    rw [List.map_cons, List.map_cons, ih, kafkaLine_eq a]
    rfl

lemma map_zkLine (l : List InstDetail) :
    (l.map (fun i => i.ip)).map GenInv.genZkLine = l.map Automate.zkLine := by
  rw [List.map_map]
  rfl

/-- C1: both discovery paths are claimed to order each role group ascending by
address under lexical string comparison, as a pure deterministic function of
the address set.  `automate_cluster_configuration.py` does; in
`generate_inventory.py` the sort is commented out, so the ordinals follow the
provider's response order: on the response `[10.0.0.9, 10.0.0.10]` the
generate path keeps that order and assigns ordinal 1 to `"10.0.0.9"`, while
lexical sorting puts `"10.0.0.10"` first, and permuting the same instance set
changes the generate path's output. -/
theorem c1_ordering_divergence_eval :
    strLe "10.0.0.9" "10.0.0.10" = false
    ∧ (GenInv.fetch_ec2_ips (Except.ok
        [⟨"10.0.0.9", "i-9", []⟩, ⟨"10.0.0.10", "i-10", []⟩])).1
      = ["10.0.0.9", "10.0.0.10"]
    ∧ GenInv.hostsMapStr (GenInv.fetch_ec2_ips (Except.ok
        [⟨"10.0.0.9", "i-9", []⟩, ⟨"10.0.0.10", "i-10", []⟩])).1
      = [("10.0.0.9", 1), ("10.0.0.10", 2)]
    ∧ (GenInv.fetch_ec2_ips (Except.ok
        [⟨"10.0.0.9", "i-9", []⟩, ⟨"10.0.0.10", "i-10", []⟩])).1
      ≠ (GenInv.fetch_ec2_ips (Except.ok
        [⟨"10.0.0.10", "i-10", []⟩, ⟨"10.0.0.9", "i-9", []⟩])).1
    ∧ Automate.fetch_instances_details (Except.ok
        [⟨"10.0.0.9", "i-9", []⟩, ⟨"10.0.0.10", "i-10", []⟩])
      = [⟨"10.0.0.10", "i-10", none⟩, ⟨"10.0.0.9", "i-9", none⟩]
    ∧ Automate.fetch_instances_details (Except.ok
        [⟨"10.0.0.9", "i-9", []⟩, ⟨"10.0.0.10", "i-10", []⟩])
      = Automate.fetch_instances_details (Except.ok
        [⟨"10.0.0.10", "i-10", []⟩, ⟨"10.0.0.9", "i-9", []⟩]) := by
  exact ⟨by decide, by decide, by decide, by decide, by decide, by decide⟩

/-- C6: a role group with zero instances contributes no change entry to the
DNS batch, and a group with at least one instance contributes exactly one
UPSERT of a type-A record named `<role>-<subservice>.moeinternal.com` with TTL
60 whose resource records are exactly the group's addresses — and the two
scripts build the same batch. -/
theorem c6_dns_change_batch (sub : String) (k z : List InstDetail) :
    ((Automate.create_route53_dns_records sub k z).filter
        (fun c => c.rrName == Automate.kafkaRecordName sub)
      = if k.isEmpty then []
        else [⟨"UPSERT", Automate.kafkaRecordName sub, "A", 60,
          k.map (fun i => i.ip)⟩])
    ∧ ((Automate.create_route53_dns_records sub k z).filter
        (fun c => c.rrName == Automate.zookeeperRecordName sub)
      = if z.isEmpty then []
        else [⟨"UPSERT", Automate.zookeeperRecordName sub, "A", 60,
          z.map (fun i => i.ip)⟩])
    ∧ GenInv.create_route53_dns_records sub (k.map (fun i => i.ip))
        (z.map (fun i => i.ip))
      = Automate.create_route53_dns_records sub k z := by
  have hzk : (Automate.zookeeperRecordName sub == Automate.kafkaRecordName sub) = false :=
    beq_eq_false_iff_ne.mpr (Ne.symm (record_names_ne sub sub))
  have hkz : (Automate.kafkaRecordName sub == Automate.zookeeperRecordName sub) = false :=
    beq_eq_false_iff_ne.mpr (record_names_ne sub sub)
  refine ⟨?_, ?_, ?_⟩
  · rw [Automate.create_route53_dns_records, List.filter_append]
    rcases k with _ | ⟨a, k'⟩ <;> rcases z with _ | ⟨b, z'⟩ <;>
      simp [List.filter_cons, hzk]
  · rw [Automate.create_route53_dns_records, List.filter_append]
    rcases k with _ | ⟨a, k'⟩ <;> rcases z with _ | ⟨b, z'⟩ <;>
      simp [List.filter_cons, hkz]
  · rw [GenInv.create_route53_dns_records, Automate.create_route53_dns_records,
      map_isEmpty, map_isEmpty]

/-- C8: the flat host list is a `[kafka]` section followed by a `[zookeeper]`
section, headers emitted even for empty groups; each Kafka instance
contributes exactly one `<ip> mount_disks=true
mount_path=/mnt/data/kafka-data disks=1,2` line and each Zookeeper instance
exactly one `<ip> mount_disks=false` line, so a group of N instances produces
exactly N body lines under its header — identically in both scripts. -/
theorem c8_flat_host_list_shape (k z : List InstDetail) :
    Automate.dpContent k z =
      "[kafka]\n" ++ String.join (k.map Automate.kafkaLine)
        ++ "\n[zookeeper]\n" ++ String.join (z.map Automate.zkLine)
    ∧ (k.map Automate.kafkaLine).length = k.length
    ∧ (z.map Automate.zkLine).length = z.length
    ∧ (∀ i : InstDetail, Automate.kafkaLine i =
        i.ip ++ " mount_disks=true mount_path=/mnt/data/kafka-data disks=1,2\n")
    ∧ (∀ i : InstDetail, Automate.zkLine i = i.ip ++ " mount_disks=false\n")
    ∧ GenInv.generate_ansible_inventory (k.map (fun i => i.ip))
        (z.map (fun i => i.ip))
      = Automate.dpContent k z := by
  refine ⟨?_, by simp, by simp, kafkaLine_eq, fun i => rfl, ?_⟩
  · rcases k with _ | ⟨a, k'⟩ <;> rcases z with _ | ⟨b, z'⟩ <;> rfl
  · rw [GenInv.generate_ansible_inventory, Automate.dpContent,
      map_isEmpty, map_isEmpty, map_kafkaLine, map_zkLine]

/-- C10: in generate_inventory.py, `fetch_ec2_ips` returns ip and id lists of
equal length with position i of both referring to the same instance, but
appends to the names list only for instances carrying a `Name` tag; on a
response whose unnamed instance precedes a named one, the positional pairing
used by `tag_ec2_instances_with_nodeid` attributes the named instance's
NodeId to the wrong instance id. -/
theorem c10_name_misalignment :
    (∀ (l : List Ec2Instance) (i : Nat),
        (GenInv.fetch_ec2_ips (Except.ok l)).1[i]?
            = (l[i]?).map (fun inst => inst.privateIpAddress)
          ∧ (GenInv.fetch_ec2_ips (Except.ok l)).2.1[i]?
            = (l[i]?).map (fun inst => inst.instanceId))
    ∧ (∀ l : List Ec2Instance,
        (GenInv.fetch_ec2_ips (Except.ok l)).1.length
          = (GenInv.fetch_ec2_ips (Except.ok l)).2.1.length)
    ∧ (GenInv.fetch_ec2_ips (Except.ok
        [⟨"10.0.0.1", "i-1", []⟩,
         ⟨"10.0.0.2", "i-2", [("Name", "staging-dataplatform-kafka-oneshot-2")]⟩]))
      = (["10.0.0.1", "10.0.0.2"], ["i-1", "i-2"],
         ["staging-dataplatform-kafka-oneshot-2"])
    ∧ GenInv.kafkaNodeTags ["i-1", "i-2"] ["staging-dataplatform-kafka-oneshot-2"]
      = [("i-1", some "oneshot-2"), ("i-2", none)]
    ∧ Automate.nameTag ⟨"10.0.0.1", "i-1", []⟩ = none := by
  refine ⟨?_, ?_, by decide, by decide, rfl⟩
  · intro l i
    constructor <;> simp [GenInv.fetch_ec2_ips, List.getElem?_map]
  · intro l
    simp [GenInv.fetch_ec2_ips]

lemma fetch_all_eq (kResp zResp : Except Unit (List Ec2Instance)) :
    Automate.fetch_all_cluster_details kResp zResp
      = if (Automate.fetch_instances_details kResp).isEmpty
          && (Automate.fetch_instances_details zResp).isEmpty then none
        else some (Automate.fetch_instances_details kResp,
          Automate.fetch_instances_details zResp) := rfl

/-- C5: a provider error during discovery of one role yields the empty list
for that role and the run continues with the other role's data; the pipeline
exits non-zero before writing any artifact exactly when both role lists are
empty (`runPipeline = none` models that early `sys.exit(1)`). -/
theorem c5_discovery_error_handling (sub : String)
    (kResp zResp : Except Unit (List Ec2Instance)) :
    Automate.fetch_instances_details (Except.error ()) = []
    ∧ GenInv.fetch_ec2_ips (Except.error ()) = ([], [], [])
    ∧ (Automate.runPipeline sub kResp zResp = none ↔
        (Automate.fetch_instances_details kResp = []
          ∧ Automate.fetch_instances_details zResp = []))
    ∧ (Automate.fetch_instances_details zResp ≠ [] →
        ∃ a, Automate.runPipeline sub (Except.error ()) zResp = some a
          ∧ a.2.zookeeperHosts
              = Automate.hostsMap (Automate.fetch_instances_details zResp)
          ∧ a.2.kafkaBrokerHosts = []) := by
  refine ⟨rfl, rfl, ?_, ?_⟩
  · rw [Automate.runPipeline, fetch_all_eq]
    rcases hk : Automate.fetch_instances_details kResp with _ | ⟨a, k'⟩ <;>
      rcases hz : Automate.fetch_instances_details zResp with _ | ⟨b, z'⟩ <;>
      simp
  · intro hz
    rcases hze : Automate.fetch_instances_details zResp with _ | ⟨b, zt⟩
    · exact absurd hze hz
    · refine ⟨(Automate.dpContent [] (b :: zt),
        Automate.generate_cp_ansible_hosts_file sub [] (b :: zt)), ?_, ?_, rfl⟩
      · rw [Automate.runPipeline, fetch_all_eq, hze]
        rfl
      · rfl

/-- Witness for C5 at a concrete run: Kafka discovery fails, one Zookeeper
instance is found, and the pipeline proceeds to produce artifacts. -/
theorem c5_discovery_error_handling_witness :
    Automate.runPipeline "oneshot" (Except.error ())
        (Except.ok [⟨"10.0.0.3", "i-3", []⟩]) ≠ none
    ∧ ∃ a, Automate.runPipeline "oneshot" (Except.error ())
          (Except.ok [⟨"10.0.0.3", "i-3", []⟩]) = some a
        ∧ a.2.zookeeperHosts = Automate.hostsMap (Automate.fetch_instances_details
            (Except.ok [⟨"10.0.0.3", "i-3", []⟩]))
        ∧ a.2.kafkaBrokerHosts = [] := by
  have h := c5_discovery_error_handling "oneshot" (Except.error ())
    (Except.ok [⟨"10.0.0.3", "i-3", []⟩])
  refine ⟨?_, h.2.2.2 (by decide)⟩
  intro hn
  exact absurd (h.2.2.1.mp hn).2 (by decide)

/-- C3 counterexample: the claim's match condition is "the display name ends
with `-<subservice>-<digits>`".  The name `foo_oneshot-2` does not end with
`-oneshot-2`, so the claim predicts the fallback `oneshot-fallback-1`, but the
code's regex `[-_]?oneshot-(\d+)$` matches (the separator is optional and may
be an underscore) and yields `oneshot-2`. -/
theorem c3_suffix_rule_cex :
    ¬ HasTailMatch ('-' :: "oneshot".data) "foo_oneshot-2".data
    ∧ Automate.nodeIdValue "oneshot"
        [⟨"10.0.0.1", "i-1", some "foo_oneshot-2"⟩]
        ⟨"10.0.0.1", "i-1", some "foo_oneshot-2"⟩ = "oneshot-2"
    ∧ ("oneshot-2" : String) ≠ "oneshot-fallback-1" := by
  exact ⟨(searchNodeSuffix_none_iff ('-' :: "oneshot".data) "foo_oneshot-2".data).mp
    (by decide), by decide, by decide⟩

/-- C3 (amended): in automate_cluster_configuration.py the derivation is the
total function: a present display name that ends with `<subservice>-<digits>`
(the preceding separator being optional — any character, a `-` or a `_`, or
nothing at all, may precede) yields `<subservice>-<digits>`; an absent name or
an unmatched name yields the fallback `<subservice>-fallback-<ordinal>`; no
branch can fail.  In generate_inventory.py there is no fallback: a name whose
`-`-split has at most 4 parts produces no NodeId at all. -/
theorem c3_nodeid_total_amended (sub : String) (kafka : List InstDetail)
    (inst : InstDetail) :
    (inst.name = none →
      Automate.nodeIdValue sub kafka inst
        = sub ++ "-fallback-" ++ toString (Automate.pyIndex kafka inst + 1))
    ∧ (∀ nm, inst.name = some nm →
        (¬ HasTailMatch sub.data nm.data →
          Automate.nodeIdValue sub kafka inst
            = sub ++ "-fallback-" ++ toString (Automate.pyIndex kafka inst + 1))
        ∧ (HasTailMatch sub.data nm.data →
          ∃ d, Automate.nodeIdValue sub kafka inst = sub ++ "-" ++ String.mk d
            ∧ IsDigitRun d ∧ ∃ p, nm.data = p ++ sub.data ++ '-' :: d))
    ∧ (∀ nm : String, (GenInv.splitDash nm.data).length ≤ 4 →
        GenInv.genNodeIdOfName nm = none) := by
  refine ⟨?_, ?_, ?_⟩
  · intro hn
    rw [Automate.nodeIdValue, hn]
  · intro nm hn
    constructor
    · intro hnot
      have hs : Automate.searchNodeSuffix sub.data nm.data = none :=
        (searchNodeSuffix_none_iff sub.data nm.data).mpr hnot
      rw [Automate.nodeIdValue, hn]
      show (match Automate.searchNodeSuffix sub.data nm.data with
        | some d => sub ++ "-" ++ String.mk d
        | none => sub ++ "-fallback-" ++ toString (Automate.pyIndex kafka inst + 1))
        = sub ++ "-fallback-" ++ toString (Automate.pyIndex kafka inst + 1)
      rw [hs]
    · intro hhas
      cases hs : Automate.searchNodeSuffix sub.data nm.data with
      | none => exact absurd hhas ((searchNodeSuffix_none_iff _ _).mp hs)
      | some d =>
        obtain ⟨⟨p, hp⟩, hd⟩ := searchNodeSuffix_some sub.data nm.data d hs
        refine ⟨d, ?_, hd, p, hp⟩
        rw [Automate.nodeIdValue, hn]
        show (match Automate.searchNodeSuffix sub.data nm.data with
          | some d => sub ++ "-" ++ String.mk d
          | none => sub ++ "-fallback-" ++ toString (Automate.pyIndex kafka inst + 1))
          = sub ++ "-" ++ String.mk d
        rw [hs]
  · intro nm hlen
    show (if (GenInv.splitDash nm.data).length > 4 then
        some (String.mk ((GenInv.splitDash nm.data).getD 3 []) ++ "-"
          ++ String.mk ((GenInv.splitDash nm.data).getD 4 [])) else none) = none
    rw [if_neg]
    omega

/-- Witness for C3 (amended) at the spec's own example: display name
`staging-dataplatform-kafka-oneshot-2` with subservice `oneshot` yields a
NodeId of the form `oneshot-<digits>` with digits `2`. -/
theorem c3_nodeid_total_amended_witness :
    ∃ d, Automate.nodeIdValue "oneshot"
        [⟨"10.0.0.1", "i-1", some "staging-dataplatform-kafka-oneshot-2"⟩]
        ⟨"10.0.0.1", "i-1", some "staging-dataplatform-kafka-oneshot-2"⟩
      = "oneshot" ++ "-" ++ String.mk d
    ∧ IsDigitRun d
    ∧ ∃ p, "staging-dataplatform-kafka-oneshot-2".data
        = p ++ "oneshot".data ++ '-' :: d := by
  exact ((c3_nodeid_total_amended "oneshot"
      [⟨"10.0.0.1", "i-1", some "staging-dataplatform-kafka-oneshot-2"⟩]
      ⟨"10.0.0.1", "i-1", some "staging-dataplatform-kafka-oneshot-2"⟩).2.1
      "staging-dataplatform-kafka-oneshot-2" rfl).2
    ⟨"staging-dataplatform-kafka-".data, ['2'], by decide, by decide, by decide⟩

/-- C4: within one run both rendering and tagging traverse the same role
group: the broker id written for the instance at position i of the kafka list
is i+1, the fallback ordinal used by tagging (`kafka_instances.index(inst)+1`)
is the same i+1, and an unnamed instance is tagged with exactly
`<subservice>-fallback-<i+1>`; the zookeeper ids agree likewise. -/
theorem c4_render_tag_ordinal_agree (sub : String) (k z : List InstDetail)
    (hk : (k.map (fun i => i.ip)).Nodup) (hz : (z.map (fun i => i.ip)).Nodup) :
    ∀ (i : Nat),
      (∀ x, k[i]? = some x →
        Automate.dictGet
            (Automate.generate_cp_ansible_hosts_file sub k z).kafkaBrokerHosts x.ip
          = some (i + 1)
        ∧ Automate.pyIndex k x + 1 = i + 1
        ∧ (x.name = none →
            Automate.nodeIdValue sub k x = sub ++ "-fallback-" ++ toString (i + 1)))
      ∧ (∀ x, z[i]? = some x →
        Automate.dictGet
            (Automate.generate_cp_ansible_hosts_file sub k z).zookeeperHosts x.ip
          = some (i + 1)) := by
  intro i
  constructor
  · intro x hx
    have h1 := dictGet_hostsMap k hk i x hx
    have hpy : Automate.pyIndex k x = i :=
      pyIndex_getElem? k (List.Nodup.of_map _ hk) i x hx
    refine ⟨h1, by rw [hpy], ?_⟩
    intro hn
    rw [Automate.nodeIdValue, hn, hpy]
  · intro x hx
    exact dictGet_hostsMap z hz i x hx

/-- Witness for C4 at a concrete two-instance Kafka group: the instance at
position 1 gets broker id 2, fallback ordinal 2, and fallback NodeId
`oneshot-fallback-2`. -/
theorem c4_render_tag_ordinal_agree_witness :
    Automate.dictGet (Automate.generate_cp_ansible_hosts_file "oneshot"
        [⟨"10.0.0.1", "i-1", none⟩, ⟨"10.0.0.2", "i-2", none⟩]
        [⟨"10.0.0.3", "i-3", none⟩]).kafkaBrokerHosts "10.0.0.2" = some 2
    ∧ Automate.pyIndex [⟨"10.0.0.1", "i-1", none⟩, ⟨"10.0.0.2", "i-2", none⟩]
          ⟨"10.0.0.2", "i-2", none⟩ + 1 = 2
    ∧ Automate.nodeIdValue "oneshot"
        [⟨"10.0.0.1", "i-1", none⟩, ⟨"10.0.0.2", "i-2", none⟩]
        ⟨"10.0.0.2", "i-2", none⟩ = "oneshot-fallback-2" := by
  have h := ((c4_render_tag_ordinal_agree "oneshot"
      [⟨"10.0.0.1", "i-1", none⟩, ⟨"10.0.0.2", "i-2", none⟩]
      [⟨"10.0.0.3", "i-3", none⟩] (by decide) (by decide)) 1).1
      ⟨"10.0.0.2", "i-2", none⟩ (by decide)
  refine ⟨h.1, h.2.1, ?_⟩
  rw [h.2.2 rfl]
  decide

/-- C9: the hierarchical inventory's two groups map each address to its
1-based ordinal (`zookeeper_id` / `broker_id`), `zookeeper.connect` is always
`zookeeper-<subservice>.moeinternal.com:2181/kafka-<subservice>`, and
`log.dirs` is always the fixed 2-path comma-joined string, independent of the
fleet; both scripts produce the same projection. -/
theorem c9_cp_hosts_contents (sub : String) (k z : List InstDetail)
    (hk : (k.map (fun i => i.ip)).Nodup) (hz : (z.map (fun i => i.ip)).Nodup) :
    (Automate.generate_cp_ansible_hosts_file sub k z).zookeeperConnect
      = "zookeeper-" ++ sub ++ ".moeinternal.com:2181/kafka-" ++ sub
    ∧ (Automate.generate_cp_ansible_hosts_file sub k z).kafkaLogDirs
      = "/mnt/data/kafka-data1/topic-data,/mnt/data/kafka-data2/topic-data"
    ∧ (∀ (i : Nat) (x : InstDetail), z[i]? = some x →
        Automate.dictGet
            (Automate.generate_cp_ansible_hosts_file sub k z).zookeeperHosts x.ip
          = some (i + 1))
    ∧ (∀ (i : Nat) (x : InstDetail), k[i]? = some x →
        Automate.dictGet
            (Automate.generate_cp_ansible_hosts_file sub k z).kafkaBrokerHosts x.ip
          = some (i + 1))
    ∧ GenInv.generate_cp_ansible_hosts_file sub (k.map (fun i => i.ip))
        (z.map (fun i => i.ip))
      = Automate.generate_cp_ansible_hosts_file sub k z := by
  refine ⟨rfl, ?_, ?_, ?_, ?_⟩
  · show Automate.kafkaLogDirsString
      = "/mnt/data/kafka-data1/topic-data,/mnt/data/kafka-data2/topic-data"
    decide
  · intro i x hx
    exact dictGet_hostsMap z hz i x hx
  · intro i x hx
    exact dictGet_hostsMap k hk i x hx
  · rw [GenInv.generate_cp_ansible_hosts_file, Automate.generate_cp_ansible_hosts_file,
      hostsMapStr_map_ip, hostsMapStr_map_ip]

/-- Witness for C9 at a concrete one-instance-per-role fleet. -/
theorem c9_cp_hosts_contents_witness :
    Automate.dictGet (Automate.generate_cp_ansible_hosts_file "oneshot"
        [⟨"10.0.0.1", "i-1", none⟩] [⟨"10.0.0.3", "i-3", none⟩]).zookeeperHosts
        "10.0.0.3" = some 1
    ∧ (Automate.generate_cp_ansible_hosts_file "oneshot"
        [⟨"10.0.0.1", "i-1", none⟩] [⟨"10.0.0.3", "i-3", none⟩]).kafkaLogDirs
      = "/mnt/data/kafka-data1/topic-data,/mnt/data/kafka-data2/topic-data" := by
  have h := c9_cp_hosts_contents "oneshot" [⟨"10.0.0.1", "i-1", none⟩]
    [⟨"10.0.0.3", "i-3", none⟩] (by decide) (by decide)
  exact ⟨h.2.2.1 0 ⟨"10.0.0.3", "i-3", none⟩ (by decide), h.2.1⟩

lemma findName_of_filterName : ∀ (tags : List (String × String)) (v : String),
    tags.filterMap (fun t => if t.1 == "Name" then some t.2 else none) = [v] →
    (tags.find? (fun t => t.1 == "Name")).map (fun t => t.2) = some v := by
  intro tags
  induction tags with
  | nil => intro v h; cases h
  | cons t rest ih =>
    intro v h
    rw [List.filterMap_cons] at h
    by_cases ht : (t.1 == "Name") = true
    · rw [if_pos ht] at h
      have h2 : t.2 :: rest.filterMap
          (fun t => if t.1 == "Name" then some t.2 else none) = [v] := h
      injection h2 with h1 _
      have hf : (t :: rest).find? (fun t => t.1 == "Name") = some t :=
        List.find?_cons_of_pos rest ht
      rw [hf]
      show some t.2 = some v
      rw [h1]
    · rw [if_neg ht] at h
      have h2 : rest.filterMap
          (fun t => if t.1 == "Name" then some t.2 else none) = [v] := h
      have hf : (t :: rest).find? (fun t => t.1 == "Name")
          = rest.find? (fun t => t.1 == "Name") :=
        List.find?_cons_of_neg rest (by simpa using ht)
      rw [hf]
      exact ih v h2

/-- An instance with exactly one `Name`-tag value has that value as its first
`Name` tag, so both scripts read the same display name from it. -/
lemma nameTag_of_nameValues {a : Ec2Instance} {v : String}
    (hv : GenInv.nameTagValues a = [v]) : Automate.nameTag a = some v :=
  findName_of_filterName a.tags v hv

lemma headName_of_nameValues {a : Ec2Instance} {v : String}
    (hv : GenInv.nameTagValues a = [v]) : headNameValue a = v := by
  rw [headNameValue, hv]
  rfl

lemma fetch_details_of_sorted (l : List Ec2Instance)
    (hs : List.Pairwise
      (fun a b => strLe a.privateIpAddress b.privateIpAddress = true) l) :
    Automate.fetch_instances_details (Except.ok l) = l.map Automate.toDetail := by
  rw [Automate.fetch_instances_details]
  exact sortByIp_fixed _ (List.pairwise_map.mpr hs)

lemma genNodeId_of_split (v sub : String) (d p1 p2 p3 : List Char)
    (hsplit : GenInv.splitDash v.data = [p1, p2, p3, sub.data, d]) :
    GenInv.genNodeIdOfName v = some (sub ++ "-" ++ String.mk d) := by
  show (if (GenInv.splitDash v.data).length > 4 then
      some (String.mk ((GenInv.splitDash v.data).getD 3 []) ++ "-"
        ++ String.mk ((GenInv.splitDash v.data).getD 4 [])) else none)
    = some (sub ++ "-" ++ String.mk d)
  rw [hsplit]
  rfl

lemma nodeIdValue_of_search (sub : String) (K : List InstDetail) (inst : InstDetail)
    (nm : String) (hn : inst.name = some nm) (d : List Char)
    (hs : Automate.searchNodeSuffix sub.data nm.data = some d) :
    Automate.nodeIdValue sub K inst = sub ++ "-" ++ String.mk d := by
  rw [Automate.nodeIdValue, hn]
  show (match Automate.searchNodeSuffix sub.data nm.data with
    | some d => sub ++ "-" ++ String.mk d
    | none => sub ++ "-fallback-" ++ toString (Automate.pyIndex K inst + 1))
    = sub ++ "-" ++ String.mk d
  rw [hs]

lemma map_congr_mem {α β : Type} : ∀ (l : List α) (f g : α → β),
    (∀ a ∈ l, f a = g a) → l.map f = l.map g := by
  intro l f g
  induction l with
  | nil => intro _; rfl
  | cons a t ih =>
    intro h
    rw [List.map_cons, List.map_cons, h a (List.mem_cons_self a t),
      ih (fun b hb => h b (List.mem_cons_of_mem a hb))]

lemma kafkaNodeTags_map_map {α : Type} (l : List α) (f g : α → String) :
    GenInv.kafkaNodeTags (l.map f) (l.map g)
      = l.map (fun a => (f a, GenInv.genNodeIdOfName (g a))) := by
  apply List.ext_getElem?
  intro n
  simp only [GenInv.kafkaNodeTags, List.getElem?_map, List.getElem?_enum]
  cases hl : l[n]? with
  | none => rfl
  | some a =>
    simp only [hl, Option.map_some']

/-- C2 counterexample: on the same single discovered Kafka instance named
`a-b-c-d-e-oneshot-3` with subservice `oneshot`, automate (regex on the
trailing `oneshot-<digits>`) tags NodeId `oneshot-3`, while generate_inventory
(`split('-')` parts 4 and 5) tags `d-e` — the two implementations do not
produce the same instance-to-id mapping. -/
theorem c2_nodeid_divergence_cex :
    Automate.kafkaNodeTags "oneshot"
        (Automate.fetch_instances_details (Except.ok
          [⟨"10.0.0.1", "i-1", [("Name", "a-b-c-d-e-oneshot-3")]⟩]))
      = [("i-1", "oneshot-3")]
    ∧ GenInv.kafkaNodeTags
        (GenInv.fetch_ec2_ips (Except.ok
          [⟨"10.0.0.1", "i-1", [("Name", "a-b-c-d-e-oneshot-3")]⟩])).2.1
        (GenInv.fetch_ec2_ips (Except.ok
          [⟨"10.0.0.1", "i-1", [("Name", "a-b-c-d-e-oneshot-3")]⟩])).2.2
      = [("i-1", some "d-e")]
    ∧ ("oneshot-3" : String) ≠ "d-e" := by
  exact ⟨by decide, by decide, by decide⟩

/-- C2 (amended): the two implementations produce the same
broker/zookeeper-id mapping and the same Kafka NodeId per instance id,
provided (a) the provider lists each role's instances already in ascending
address order (generate_inventory.py does not sort; its sort is commented
out), (b) every Kafka instance carries exactly one `Name` tag, and (c) every
Kafka display name both matches automate's regex with digit group `d` and
splits on `-` into exactly five parts whose fourth is the subservice and
whose fifth is `d`. -/
theorem c2_mapping_equivalence_amended (sub : String) (lk lz : List Ec2Instance)
    (hks : List.Pairwise
      (fun a b => strLe a.privateIpAddress b.privateIpAddress = true) lk)
    (hzs : List.Pairwise
      (fun a b => strLe a.privateIpAddress b.privateIpAddress = true) lz)
    (hname : ∀ i ∈ lk, ∃ v, GenInv.nameTagValues i = [v])
    (hform : ∀ i ∈ lk, ∀ v, GenInv.nameTagValues i = [v] →
        ∃ d p1 p2 p3, Automate.searchNodeSuffix sub.data v.data = some d
          ∧ GenInv.splitDash v.data = [p1, p2, p3, sub.data, d]) :
    GenInv.generate_cp_ansible_hosts_file sub
        (GenInv.fetch_ec2_ips (Except.ok lk)).1
        (GenInv.fetch_ec2_ips (Except.ok lz)).1
      = Automate.generate_cp_ansible_hosts_file sub
          (Automate.fetch_instances_details (Except.ok lk))
          (Automate.fetch_instances_details (Except.ok lz))
    ∧ GenInv.kafkaNodeTags (GenInv.fetch_ec2_ips (Except.ok lk)).2.1
        (GenInv.fetch_ec2_ips (Except.ok lk)).2.2
      = (Automate.kafkaNodeTags sub
          (Automate.fetch_instances_details (Except.ok lk))).map
          (fun p => (p.1, some p.2)) := by
  have hKfix := fetch_details_of_sorted lk hks
  have hZfix := fetch_details_of_sorted lz hzs
  constructor
  · have e1 : (GenInv.fetch_ec2_ips (Except.ok lk)).1
        = (lk.map Automate.toDetail).map (fun i => i.ip) := by
      rw [List.map_map]
      rfl
    have e2 : (GenInv.fetch_ec2_ips (Except.ok lz)).1
        = (lz.map Automate.toDetail).map (fun i => i.ip) := by
      rw [List.map_map]
      rfl
    rw [hKfix, hZfix, e1, e2, GenInv.generate_cp_ansible_hosts_file,
      Automate.generate_cp_ansible_hosts_file, hostsMapStr_map_ip,
      hostsMapStr_map_ip]
  · have hids : (GenInv.fetch_ec2_ips (Except.ok lk)).2.1
        = lk.map (fun i => i.instanceId) := rfl
    have hNames : (GenInv.fetch_ec2_ips (Except.ok lk)).2.2
        = lk.map headNameValue := flatMap_names lk hname
    rw [hids, hNames, hKfix, kafkaNodeTags_map_map]
    rw [show Automate.kafkaNodeTags sub (lk.map Automate.toDetail)
        = lk.map (fun a => ((Automate.toDetail a).id,
            Automate.nodeIdValue sub (lk.map Automate.toDetail)
              (Automate.toDetail a)))
      from List.map_map _ _ _]
    rw [List.map_map]
    apply map_congr_mem
    intro a hmem
    obtain ⟨v, hv⟩ := hname a hmem
    obtain ⟨d, p1, p2, p3, hsearch, hsplit⟩ := hform a hmem v hv
    show (a.instanceId, GenInv.genNodeIdOfName (headNameValue a))
      = ((Automate.toDetail a).id,
          some (Automate.nodeIdValue sub (lk.map Automate.toDetail)
            (Automate.toDetail a)))
    rw [headName_of_nameValues hv, genNodeId_of_split v sub d p1 p2 p3 hsplit,
      nodeIdValue_of_search sub (lk.map Automate.toDetail) (Automate.toDetail a)
        v (nameTag_of_nameValues hv) d hsearch]
    rfl

/-- Witness for C2 (amended) at a concrete sorted single-instance fleet: the
Kafka instance carries its discovery-filter tags (`Service`, `SubService`)
alongside exactly one `Name` tag, and its name satisfies both derivations. -/
theorem c2_mapping_equivalence_amended_witness :
    GenInv.generate_cp_ansible_hosts_file "oneshot"
        (GenInv.fetch_ec2_ips (Except.ok
          [⟨"10.0.0.1", "i-1",
            [("Service", "kafka"), ("SubService", "oneshot"),
             ("Name", "staging-dataplatform-kafka-oneshot-2")]⟩])).1
        (GenInv.fetch_ec2_ips (Except.ok
          [⟨"10.0.0.2", "i-2",
            [("Service", "zookeeper"), ("SubService", "oneshot")]⟩])).1
      = Automate.generate_cp_ansible_hosts_file "oneshot"
          (Automate.fetch_instances_details (Except.ok
            [⟨"10.0.0.1", "i-1",
              [("Service", "kafka"), ("SubService", "oneshot"),
               ("Name", "staging-dataplatform-kafka-oneshot-2")]⟩]))
          (Automate.fetch_instances_details (Except.ok
            [⟨"10.0.0.2", "i-2",
              [("Service", "zookeeper"), ("SubService", "oneshot")]⟩]))
    ∧ GenInv.kafkaNodeTags
        (GenInv.fetch_ec2_ips (Except.ok
          [⟨"10.0.0.1", "i-1",
            [("Service", "kafka"), ("SubService", "oneshot"),
             ("Name", "staging-dataplatform-kafka-oneshot-2")]⟩])).2.1
        (GenInv.fetch_ec2_ips (Except.ok
          [⟨"10.0.0.1", "i-1",
            [("Service", "kafka"), ("SubService", "oneshot"),
             ("Name", "staging-dataplatform-kafka-oneshot-2")]⟩])).2.2
      = (Automate.kafkaNodeTags "oneshot"
          (Automate.fetch_instances_details (Except.ok
            [⟨"10.0.0.1", "i-1",
              [("Service", "kafka"), ("SubService", "oneshot"),
               ("Name", "staging-dataplatform-kafka-oneshot-2")]⟩]))).map
          (fun p => (p.1, some p.2)) := by
  apply c2_mapping_equivalence_amended "oneshot"
    [⟨"10.0.0.1", "i-1",
      [("Service", "kafka"), ("SubService", "oneshot"),
       ("Name", "staging-dataplatform-kafka-oneshot-2")]⟩]
    [⟨"10.0.0.2", "i-2", [("Service", "zookeeper"), ("SubService", "oneshot")]⟩]
  · exact List.pairwise_singleton _ _
  · exact List.pairwise_singleton _ _
  · intro i hi
    rw [List.mem_singleton] at hi
    subst hi
    exact ⟨"staging-dataplatform-kafka-oneshot-2", by decide⟩
  · intro i hi v hv
    rw [List.mem_singleton] at hi
    subst hi
    have hv2 : v = "staging-dataplatform-kafka-oneshot-2" := by
      have h0 : GenInv.nameTagValues
          ⟨"10.0.0.1", "i-1",
            [("Service", "kafka"), ("SubService", "oneshot"),
             ("Name", "staging-dataplatform-kafka-oneshot-2")]⟩
          = ["staging-dataplatform-kafka-oneshot-2"] := by decide
      rw [h0] at hv
      injection hv with h1 _
      exact h1.symm
    subst hv2
    exact ⟨['2'], "staging".data, "dataplatform".data, "kafka".data,
      by decide, by decide⟩

lemma tagKafka_elem_eq (sub : String) (err : String → Bool) (K : List InstDetail)
    (inst : InstDetail) (he : err inst.id = false) :
    (if Automate.nodeIdValue sub K inst = "" then Automate.TagEvent.skipped inst.id
     else if err inst.id then Automate.TagEvent.failed inst.id
     else Automate.TagEvent.tagged inst.id
       [("NodeId", Automate.nodeIdValue sub K inst), ("prometheus", "enabled")])
    = Automate.TagEvent.tagged inst.id
        [("NodeId", Automate.nodeIdValue sub K inst), ("prometheus", "enabled")] := by
  rw [if_neg (nodeIdValue_ne_empty sub K inst), if_neg (by simp [he])]

lemma tagged_mem_tagKafka (sub : String) (err : String → Bool)
    (K : List InstDetail) (inst : InstDetail) (hmem : inst ∈ K)
    (he : err inst.id = false) :
    Automate.TagEvent.tagged inst.id
        [("NodeId", Automate.nodeIdValue sub K inst), ("prometheus", "enabled")]
      ∈ Automate.tagKafkaInstances sub err K := by
  have h1 := List.mem_map_of_mem (fun inst =>
    if Automate.nodeIdValue sub K inst = "" then Automate.TagEvent.skipped inst.id
    else if err inst.id then Automate.TagEvent.failed inst.id
    else Automate.TagEvent.tagged inst.id
      [("NodeId", Automate.nodeIdValue sub K inst), ("prometheus", "enabled")]) hmem
  have h2 : (if Automate.nodeIdValue sub K inst = ""
      then Automate.TagEvent.skipped inst.id
      else if err inst.id then Automate.TagEvent.failed inst.id
      else Automate.TagEvent.tagged inst.id
        [("NodeId", Automate.nodeIdValue sub K inst), ("prometheus", "enabled")])
      ∈ Automate.tagKafkaInstances sub err K := h1
  rw [tagKafka_elem_eq sub err K inst he] at h2
  exact h2

lemma tagged_mem_tagZk (err : String → Bool) (Z : List InstDetail)
    (inst : InstDetail) (hmem : inst ∈ Z) (he : err inst.id = false) :
    Automate.TagEvent.tagged inst.id [("prometheus", "enabled")]
      ∈ Automate.tagZookeeperInstances err Z := by
  have h1 := List.mem_map_of_mem (fun inst =>
    if err inst.id then Automate.TagEvent.failed inst.id
    else Automate.TagEvent.tagged inst.id [("prometheus", "enabled")]) hmem
  have h2 : (if err inst.id then Automate.TagEvent.failed inst.id
      else Automate.TagEvent.tagged inst.id [("prometheus", "enabled")])
      ∈ Automate.tagZookeeperInstances err Z := h1
  rw [if_neg (by simp [he])] at h2
  exact h2

lemma skipped_not_mem_events (sub : String) (err : String → Bool)
    (K Z : List InstDetail) (s : String) :
    Automate.TagEvent.skipped s
      ∉ Automate.tagKafkaInstances sub err K
        ++ Automate.tagZookeeperInstances err Z := by
  intro hs
  rcases List.mem_append.mp hs with h | h
  · rw [Automate.tagKafkaInstances] at h
    obtain ⟨inst, hmem, heq⟩ := List.mem_map.mp h
    have heq2 : (if Automate.nodeIdValue sub K inst = ""
        then Automate.TagEvent.skipped inst.id
        else if err inst.id then Automate.TagEvent.failed inst.id
        else Automate.TagEvent.tagged inst.id
          [("NodeId", Automate.nodeIdValue sub K inst), ("prometheus", "enabled")])
        = Automate.TagEvent.skipped s := heq
    rw [if_neg (nodeIdValue_ne_empty sub K inst)] at heq2
    by_cases h2 : err inst.id = true
    · rw [if_pos h2] at heq2
      exact Automate.TagEvent.noConfusion heq2
    · rw [if_neg h2] at heq2
      exact Automate.TagEvent.noConfusion heq2
  · rw [Automate.tagZookeeperInstances] at h
    obtain ⟨inst, hmem, heq⟩ := List.mem_map.mp h
    have heq2 : (if err inst.id then Automate.TagEvent.failed inst.id
        else Automate.TagEvent.tagged inst.id [("prometheus", "enabled")])
        = Automate.TagEvent.skipped s := heq
    by_cases h2 : err inst.id = true
    · rw [if_pos h2] at heq2
      exact Automate.TagEvent.noConfusion heq2
    · rw [if_neg h2] at heq2
      exact Automate.TagEvent.noConfusion heq2

/-- C7: per-instance tagging failures are caught and logged: every instance
of every role group is still visited (one event per instance, never the dead
skip branch), every instance whose own call does not fail is tagged, and the
run's exit status does not depend on the tagging-error pattern at all; the
per-instance catch of generate_inventory.py's Kafka loop likewise tags every
healthy position regardless of errors elsewhere. -/
theorem c7_tagging_continue_on_error (sub : String) (err : String → Bool)
    (kResp zResp : Except Unit (List Ec2Instance)) :
    (Automate.fullRun sub kResp zResp err).isSome
      = (Automate.fullRun sub kResp zResp (fun _ => false)).isSome
    ∧ (∀ r, Automate.fullRun sub kResp zResp err = some r →
        r.2.length = (Automate.fetch_instances_details kResp).length
            + (Automate.fetch_instances_details zResp).length
        ∧ (∀ inst ∈ Automate.fetch_instances_details kResp, err inst.id = false →
            Automate.TagEvent.tagged inst.id
                [("NodeId", Automate.nodeIdValue sub
                    (Automate.fetch_instances_details kResp) inst),
                  ("prometheus", "enabled")] ∈ r.2)
        ∧ (∀ inst ∈ Automate.fetch_instances_details zResp, err inst.id = false →
            Automate.TagEvent.tagged inst.id [("prometheus", "enabled")] ∈ r.2)
        ∧ (∀ s, Automate.TagEvent.skipped s ∉ r.2))
    ∧ (∀ (ids names : List String) (i : Nat) (instId nm v : String),
        ids[i]? = some instId → names[i]? = some nm →
        GenInv.genNodeIdOfName nm = some v → err instId = false →
        Automate.TagEvent.tagged instId [("NodeId", v), ("prometheus", "enabled")]
          ∈ GenInv.tagKafka err ids names) := by
  refine ⟨?_, ?_, ?_⟩
  · rw [Automate.fullRun, Automate.fullRun]
    cases Automate.fetch_all_cluster_details kResp zResp <;> rfl
  · intro r hr
    rw [Automate.fullRun, fetch_all_eq] at hr
    by_cases hc : ((Automate.fetch_instances_details kResp).isEmpty
        && (Automate.fetch_instances_details zResp).isEmpty) = true
    · rw [if_pos hc] at hr
      exact Option.noConfusion hr
    · rw [if_neg hc] at hr
      have hr2 : r = ((Automate.dpContent (Automate.fetch_instances_details kResp)
            (Automate.fetch_instances_details zResp),
          Automate.generate_cp_ansible_hosts_file sub
            (Automate.fetch_instances_details kResp)
            (Automate.fetch_instances_details zResp)),
        Automate.tagKafkaInstances sub err (Automate.fetch_instances_details kResp)
          ++ Automate.tagZookeeperInstances err
            (Automate.fetch_instances_details zResp)) := by
        injection hr with hr
        exact hr.symm
      subst hr2
      refine ⟨?_, ?_, ?_, ?_⟩
      · simp [Automate.tagKafkaInstances, Automate.tagZookeeperInstances]
      · intro inst hmem he
        exact List.mem_append_left _ (tagged_mem_tagKafka sub err _ inst hmem he)
      · intro inst hmem he
        exact List.mem_append_right _ (tagged_mem_tagZk err _ inst hmem he)
      · intro s
        exact skipped_not_mem_events sub err _ _ s
  · intro ids names i instId nm v hid hnm hv he
    have h1 : (GenInv.tagKafka err ids names)[i]?
        = some (Automate.TagEvent.tagged instId
            [("NodeId", v), ("prometheus", "enabled")]) := by
      rw [GenInv.tagKafka, List.getElem?_map, List.getElem?_enum, hid]
      show some (match names[i]? with
        | some nm =>
          match GenInv.genNodeIdOfName nm with
          | some v =>
            if err instId then Automate.TagEvent.failed instId
            else Automate.TagEvent.tagged instId
              [("NodeId", v), ("prometheus", "enabled")]
          | none => Automate.TagEvent.skipped instId
        | none => Automate.TagEvent.skipped instId)
        = some (Automate.TagEvent.tagged instId
            [("NodeId", v), ("prometheus", "enabled")])
      rw [hnm]
      show some (match GenInv.genNodeIdOfName nm with
        | some v =>
          if err instId then Automate.TagEvent.failed instId
          else Automate.TagEvent.tagged instId
            [("NodeId", v), ("prometheus", "enabled")]
        | none => Automate.TagEvent.skipped instId)
        = some (Automate.TagEvent.tagged instId
            [("NodeId", v), ("prometheus", "enabled")])
      rw [hv]
      show some (if err instId then Automate.TagEvent.failed instId
        else Automate.TagEvent.tagged instId
          [("NodeId", v), ("prometheus", "enabled")])
        = some (Automate.TagEvent.tagged instId
            [("NodeId", v), ("prometheus", "enabled")])
      rw [if_neg (by simp [he])]
    exact List.get?_mem (by rw [List.get?_eq_getElem?]; exact h1)

/-- Witness for C7: three Kafka instances, the provider call for `i-2` fails;
`i-1` and `i-3` are still tagged and the run still completes (exit 0). -/
theorem c7_tagging_continue_on_error_witness :
    (Automate.fullRun "oneshot" (Except.ok
        [⟨"10.0.0.1", "i-1", []⟩, ⟨"10.0.0.2", "i-2", []⟩,
         ⟨"10.0.0.3", "i-3", []⟩])
        (Except.ok []) (fun s => s == "i-2")).isSome = true
    ∧ ∃ r, Automate.fullRun "oneshot" (Except.ok
          [⟨"10.0.0.1", "i-1", []⟩, ⟨"10.0.0.2", "i-2", []⟩,
           ⟨"10.0.0.3", "i-3", []⟩])
          (Except.ok []) (fun s => s == "i-2") = some r
        ∧ Automate.TagEvent.tagged "i-1"
            [("NodeId", "oneshot-fallback-1"), ("prometheus", "enabled")] ∈ r.2
        ∧ Automate.TagEvent.tagged "i-3"
            [("NodeId", "oneshot-fallback-3"), ("prometheus", "enabled")] ∈ r.2 := by
  have h := c7_tagging_continue_on_error "oneshot" (fun s => s == "i-2")
    (Except.ok [⟨"10.0.0.1", "i-1", []⟩, ⟨"10.0.0.2", "i-2", []⟩,
      ⟨"10.0.0.3", "i-3", []⟩])
    (Except.ok [])
  have h2 := h.2.1 _ rfl
  refine ⟨by rw [h.1]; decide, _, rfl, ?_, ?_⟩
  · exact h2.2.1 ⟨"10.0.0.1", "i-1", none⟩ (by decide) (by decide)
  · exact h2.2.1 ⟨"10.0.0.3", "i-3", none⟩ (by decide) (by decide)
